import Mathlib

/-!
Verification of the GREENLOGISTICS AI backend (`src/backend/main.py`).

The source is a FastAPI application with three endpoints; the behaviour at
stake is concentrated in the pure request-processing logic:
  * `extract_text_from_pdf` / `extract_text_from_txt` (lines 148-173),
  * `process_uploaded_file` (lines 175-208),
  * `get_demo_response` (lines 210-253),
  * `health_check` (lines 270-279),
  * `analyze_document` (lines 281-382).

Conventions of the embedding:
  * Python strings are Lean `String` (both sequences of Unicode codepoints,
    so `len` is `String.length`).
  * Raw file bytes are `List Nat` (each entry one byte).
  * Python exceptions are an explicit `Except` error channel: `PyExc` below
    distinguishes `HTTPException(status_code, detail)`, `anthropic.APIError`,
    and any other `Exception`, which is exactly the distinction made by the
    `except` clauses at lines 368-382.
  * The Anthropic client object is data (`AnthropicClient`); the module-level
    `client` variable (line 52) is an `Option AnthropicClient` parameter.
  * The single network call `client.messages.create(...)` (line 335) is
    modelled by a parameter `ext : Except PyExc ClaudeResponse` giving the
    outcome that call would have: the reply object, or the exception it
    raises.  `ClaudeResponse.content` is the list of block texts, so
    `response.content[0].text` is its head.
  * The event-loop clock readings (lines 296, 349) are abstracted by a
    `processing_time` parameter (the measured duration; float rounding is
    abstracted away).  The handlers that never read a clock receive a `now`
    parameter they ignore, which makes determinism-across-time statements
    non-vacuous.
  * The temporary file of `process_uploaded_file` is tracked by a `Bool`
    returned alongside the result: `true` means the temp file is still on
    disk after the function finishes.
-/

/-- ASCII whitespace as recognised by Python's `str.strip()` (the Unicode
whitespace code points beyond ASCII are not modelled; no input in this
development uses them). -/
def pyIsSpace (c : Char) : Bool :=
  c = ' ' || c = '\t' || c = '\n' || c = '\r' || c = '\x0b' || c = '\x0c'

/-- `str.strip()` on the underlying character list: drop whitespace from the
front, then from the back. -/
def stripList (l : List Char) : List Char :=
  ((l.dropWhile pyIsSpace).reverse.dropWhile pyIsSpace).reverse

/-- Python `str.strip()`. -/
def pyStrip (s : String) : String :=
  ⟨stripList s.data⟩

/-- Python `str.endswith(suffix)`: suffix test on the codepoint sequence. -/
def pyEndsWith (s suffix : String) : Bool :=
  suffix.data.isSuffixOf s.data

/-- ASCII lower-casing of one character (Python `str.lower()` restricted to
ASCII; the filenames in this development are ASCII). -/
def pyToLowerChar (c : Char) : Char :=
  if 'A' ≤ c && c ≤ 'Z' then Char.ofNat (c.toNat + 32) else c

/-- Python `str.lower()` (ASCII fragment). -/
def pyToLower (s : String) : String :=
  ⟨s.data.map pyToLowerChar⟩

/-- Classification of a UTF-8 lead byte: `some (need, cp, lo, hi)` means
`need` continuation bytes follow, `cp` is the accumulated codepoint so far,
and the next continuation byte must lie in `[lo, hi]` (the narrowed ranges
for `E0`/`ED`/`F0`/`F4` rule out overlong forms and surrogates, as CPython's
strict UTF-8 decoder does).  `none` means the byte cannot start a sequence. -/
def utf8Lead (b : Nat) : Option (Nat × Nat × Nat × Nat) :=
  if b ≤ 127 then some (0, b, 0, 0)
  else if 194 ≤ b && b ≤ 223 then some (1, b - 192, 128, 191)
  else if b = 224 then some (2, 0, 160, 191)
  else if b = 237 then some (2, 13, 128, 159)
  else if 224 ≤ b && b ≤ 239 then some (2, b - 224, 128, 191)
  else if b = 240 then some (3, 0, 144, 191)
  else if b = 244 then some (3, 4, 128, 143)
  else if 240 ≤ b && b ≤ 244 then some (3, b - 240, 128, 191)
  else none

/-- Strict UTF-8 decoding loop.  State: `need` continuation bytes still
expected, `cp` the partial codepoint, `[lo, hi]` the admissible range of the
next byte.  Any malformed byte yields `none`, as Python's default
`errors='strict'` handler raises `UnicodeDecodeError`. -/
def utf8DecodeStrictLoop : List Nat → Nat → Nat → Nat → Nat → Option (List Nat)
  | [], 0, _, _, _ => some []
  | [], _ + 1, _, _, _ => none
  | b :: rest, 0, _, _, _ =>
    match utf8Lead b with
    | none => none
    | some (0, cp, _, _) => (utf8DecodeStrictLoop rest 0 0 0 0).map (fun cps => cp :: cps)
    | some (n + 1, cp, lo, hi) => utf8DecodeStrictLoop rest (n + 1) cp lo hi
  | b :: rest, need + 1, cp, lo, hi =>
    if lo ≤ b && b ≤ hi then
      if need = 0 then
        (utf8DecodeStrictLoop rest 0 0 0 0).map (fun cps => (cp * 64 + (b - 128)) :: cps)
      else
        utf8DecodeStrictLoop rest need (cp * 64 + (b - 128)) 128 191
    else none

/-- `bytes.decode('utf-8')` with the default strict error handler:
`some` codepoints on valid UTF-8, `none` when a `UnicodeDecodeError` would
be raised. -/
def utf8DecodeStrict (l : List Nat) : Option (List Nat) :=
  utf8DecodeStrictLoop l 0 0 0 0

/-- Lossy UTF-8 decoding loop for `errors='ignore'`: undecodable bytes are
skipped (on a bad continuation byte the pending partial sequence is dropped
and the offending byte is reconsidered as a lead byte), approximating
CPython's ignore handler. -/
def utf8DecodeIgnoreLoop : List Nat → Nat → Nat → Nat → Nat → List Nat
  | [], _, _, _, _ => []
  | b :: rest, 0, _, _, _ =>
    match utf8Lead b with
    | none => utf8DecodeIgnoreLoop rest 0 0 0 0
    | some (0, cp, _, _) => cp :: utf8DecodeIgnoreLoop rest 0 0 0 0
    | some (n + 1, cp, lo, hi) => utf8DecodeIgnoreLoop rest (n + 1) cp lo hi
  | b :: rest, need + 1, cp, lo, hi =>
    if lo ≤ b && b ≤ hi then
      if need = 0 then
        (cp * 64 + (b - 128)) :: utf8DecodeIgnoreLoop rest 0 0 0 0
      else
        utf8DecodeIgnoreLoop rest need (cp * 64 + (b - 128)) 128 191
    else
      match utf8Lead b with
      | none => utf8DecodeIgnoreLoop rest 0 0 0 0
      | some (0, cp2, _, _) => cp2 :: utf8DecodeIgnoreLoop rest 0 0 0 0
      | some (n + 1, cp2, lo2, hi2) => utf8DecodeIgnoreLoop rest (n + 1) cp2 lo2 hi2

/-- `bytes.decode('utf-8', errors='ignore')`. -/
def utf8DecodeIgnore (l : List Nat) : List Nat :=
  utf8DecodeIgnoreLoop l 0 0 0 0

/-- Build a `String` from decoded codepoints. -/
def stringOfCodepoints (l : List Nat) : String :=
  ⟨l.map Char.ofNat⟩

/-- The three kinds of Python exception the handler at lines 368-382 of
`main.py` distinguishes: `fastapi.HTTPException`, `anthropic.APIError`, and
every other `Exception`. -/
inductive PyExc where
  | httpException (status_code : Nat) (detail : String)
  | apiError (message : String)
  | otherError (message : String)
deriving DecidableEq, Repr

deriving instance DecidableEq for Except

/-- The HTTP error response FastAPI produces from a raised `HTTPException`:
a status code and a `detail` string. -/
structure ErrorResponse where
  status_code : Nat
  detail : String
deriving DecidableEq, Repr

/-- The `anthropic.Anthropic(api_key=...)` client object (line 55). -/
structure AnthropicClient where
  api_key : String
deriving DecidableEq, Repr

/-- The reply object of `client.messages.create` (line 335): the list of
content-block texts and `usage.input_tokens`. -/
structure ClaudeResponse where
  content : List String
  input_tokens : Nat
deriving DecidableEq, Repr

/-- Metadata of the demo response (lines 246-252), field names and order as
in the source dict. -/
structure DemoMetadata where
  mode : String
  chars_processed : Nat
  language : String
  model : String
  timestamp : String
deriving DecidableEq, Repr

/-- Metadata of the production response (lines 355-362), field names and
order as in the source dict. -/
structure ProdMetadata where
  tokens_used : Nat
  model : String
  language : String
  processing_time_seconds : Nat
  document_chars : Nat
  api_mode : String
deriving DecidableEq, Repr

/-- The two metadata shapes `/api/analyze` can return. -/
inductive Metadata where
  | demo (m : DemoMetadata)
  | prod (m : ProdMetadata)
deriving DecidableEq, Repr

/-- JSON body of a successful `/api/analyze` response: `success`,
`analysis`, `metadata`. -/
structure AnalyzeResponse where
  success : Bool
  analysis : String
  metadata : Metadata
deriving DecidableEq, Repr

/-- JSON body of `GET /api/health` (lines 273-279). -/
structure HealthResponse where
  status : String
  service : String
  version : String
  ai_available : Bool
  timestamp : String
deriving DecidableEq, Repr

/-- An uploaded file as the handler sees it: its `filename`, the outcome of
`await file.read()` (the bytes, or the exception message if reading the
upload stream fails), and the outcome PyPDF2 would produce on those bytes
(the per-page `extract_text()` results in page order — `""` for a page with
no extractable text — or the exception message if opening/parsing raises). -/
structure UploadedFile where
  filename : String
  readResult : Except String (List Nat)
  pdfParse : Except String (List String)
deriving DecidableEq, Repr

/-- `extract_text_from_pdf` (lines 148-162): on a parse/extraction failure,
`HTTPException(400, "Error leyendo PDF: ...")`; otherwise each page text
that is non-empty is appended followed by `"\n"`, and the accumulated text
is returned `.strip()`ped. -/
def extract_text_from_pdf (parsed : Except String (List String)) : Except PyExc String :=
  match parsed with
  | .error e => .error (.httpException 400 ("Error leyendo PDF: " ++ e))
  | .ok pages =>
    .ok (pyStrip (pages.foldl
      (fun text page_text => if page_text = "" then text else text ++ page_text ++ "\n") ""))

/-- `extract_text_from_txt` (lines 164-173): `open(path, 'r',
encoding='utf-8')` decodes strictly, so undecodable bytes raise a
`UnicodeDecodeError`, caught and re-raised as `HTTPException(400, "Error
leyendo archivo de texto: " + str(e))`.  The dynamic `str(e)` text is
abbreviated to a fixed stand-in; no claim depends on its wording. -/
def extract_text_from_txt (content : List Nat) : Except PyExc String :=
  match utf8DecodeStrict content with
  | some cps => .ok (stringOfCodepoints cps)
  | none => .error (.httpException 400 ("Error leyendo archivo de texto: " ++ "invalid utf-8"))

/-- `process_uploaded_file` (lines 175-208).  The temporary file is created
(and written) by the `with tempfile.NamedTemporaryFile(delete=False)` block
*before* the `try`, so when `await file.read()` raises, the exception
propagates with the temp file still on disk (second component `true`).
Once the bytes are written, extraction runs inside `try ... finally
os.unlink(tmp_path)`, so on every other path the temp file is deleted
(second component `false`). -/
def process_uploaded_file (f : UploadedFile) : Except PyExc String × Bool :=
  match f.readResult with
  | .error msg => (.error (.otherError msg), true)
  | .ok content =>
    let filename_lower := pyToLower f.filename
    let extracted : Except PyExc String :=
      if pyEndsWith filename_lower ".pdf" then
        extract_text_from_pdf f.pdfParse
      else if pyEndsWith filename_lower ".txt" || pyEndsWith filename_lower ".doc"
          || pyEndsWith filename_lower ".docx" then
        extract_text_from_txt content
      else
        .ok (stringOfCodepoints (utf8DecodeIgnore content))
    let checked : Except PyExc String :=
      extracted.bind fun document_text =>
        if pyStrip document_text = "" then
          .error (.httpException 400 "El documento está vacío o no se pudo extraer texto")
        else
          .ok document_text
    (checked, false)

/-- The f-string of `get_demo_response` (lines 214-245), verbatim, with
`len(document_text)` and `language` interpolated. -/
def demo_analysis_text (document_text language : String) : String :=
  "\n🌍 GREENLOGISTICS AI - ANÁLISIS DE DEMOSTRACIÓN\n\n📋 CONTEXTO DOCUMENTAL (MODO DEMO):\n• Documento recibido: "
    ++ toString document_text.length
    ++ " caracteres\n• Idioma de análisis: "
    ++ language
    ++ "\n• Modo: Demostración (API key no configurada)\n\n🔍 COMPRENSIÓN DE LA OPERACIÓN:\nDocumento detectado correctamente. Para un análisis real con IA:\n1. Configura ANTHROPIC_API_KEY en Render.com\n2. Recarga la aplicación\n3. Sube un documento real de logística\n\n💡 INSIGHT DEL ASESOR:\nEsta demostración muestra la arquitectura funcional. El siguiente paso es integrar Claude AI para análisis de:\n• Clasificación arancelaria automática\n• Optimización de Incoterms\n• Evaluación de riesgos aduaneros\n• Cálculo de huella de carbono\n\n✅ PLAN DE ACCIÓN:\n1. INMEDIATO: Configurar API key en variables de entorno\n2. PREPARATORIO: Probar con documentos reales de exportación\n3. ESTRATÉGICO: Conectar con bases de datos de aranceles\n\n📊 REGISTRO DE DECISIÓN:\n• Escenario: Modo demostración activado\n• Justificación: API key pendiente de configuración\n• Riesgo: Análisis limitado a funcionalidad básica\n• Siguiente: Configurar integración completa con Claude AI\n"

/-- `get_demo_response` (lines 210-253). -/
def get_demo_response (document_text : String) (language : String) : AnalyzeResponse :=
  { success := true
    analysis := demo_analysis_text document_text language
    metadata := Metadata.demo
      { mode := "demo"
        chars_processed := document_text.length
        language := language
        model := "none"
        timestamp := "2024-01-01T00:00:00Z" } }

/-- `health_check` (lines 270-279).  The `now` parameter stands for the
ambient clock at the moment of the call; the source never reads it — the
timestamp is the hard-coded literal of line 278. -/
def health_check (client : Option AnthropicClient) (now : String) : HealthResponse :=
  { status := "healthy"
    service := "GREENLOGISTICS AI API"
    version := "2.0.0"
    ai_available := client.isSome
    timestamp := "2024-01-01T00:00:00Z" }

/-- Lines 302-312 of `analyze_document`: obtain `document_text` from the
uploaded file or, failing that (`elif text:` — `text` present and
non-empty), from `text.strip()`; otherwise `HTTPException(400, ...)`.  The
second component is the temp-file flag of `process_uploaded_file` (`false`
when no file was uploaded, since then no temp file is created). -/
def get_document_text (file : Option UploadedFile) (text : Option String) :
    Except PyExc String × Bool :=
  match file with
  | some f => process_uploaded_file f
  | none =>
    match text with
    | some t =>
      if t = "" then
        (.error (.httpException 400 "Debe proporcionar un archivo (file) o texto (text)"), false)
      else
        (.ok (pyStrip t), false)
    | none =>
      (.error (.httpException 400 "Debe proporcionar un archivo (file) o texto (text)"), false)

/-- Lines 314-366 of `analyze_document`: the emptiness re-check, the demo
fallback when `client is None`, and otherwise the single Claude call whose
outcome is `ext`.  `response.content[0]` on an empty content list raises an
`IndexError` (an ordinary `Exception`). -/
def dispatch_analysis (client : Option AnthropicClient) (ext : Except PyExc ClaudeResponse)
    (processing_time : Nat) (document_text : String) (language : String) :
    Except PyExc AnalyzeResponse :=
  if document_text = "" then
    .error (.httpException 400 "El documento está vacío")
  else
    match client with
    | none => .ok (get_demo_response document_text language)
    | some _ =>
      match ext with
      | .error e => .error e
      | .ok response =>
        match response.content with
        | [] => .error (.otherError "list index out of range")
        | first :: _ =>
          .ok { success := true
                analysis := first
                metadata := Metadata.prod
                  { tokens_used := response.input_tokens
                    model := "claude-3-haiku-20240307"
                    language := language
                    processing_time_seconds := processing_time
                    document_chars := document_text.length
                    api_mode := "production" } }

/-- The `except` clauses of `analyze_document` (lines 368-382):
`anthropic.APIError` becomes `HTTPException(502, ...)`, an `HTTPException`
is re-raised unchanged, and any other `Exception` becomes
`HTTPException(500, ...)`. -/
def handle_exceptions {α : Type} : Except PyExc α → Except ErrorResponse α
  | .ok a => .ok a
  | .error (.apiError m) => .error ⟨502, "Error en el servicio de IA: " ++ m⟩
  | .error (.httpException s d) => .error ⟨s, d⟩
  | .error (.otherError m) => .error ⟨500, "Error interno del servidor: " ++ m⟩

/-- `analyze_document` (lines 281-382), end to end: acquire the document
text, dispatch the analysis, map exceptions to HTTP error responses.  The
second component reports whether a temporary file created for the request
is still on disk after the handler returns. -/
def analyze_document (client : Option AnthropicClient) (ext : Except PyExc ClaudeResponse)
    (processing_time : Nat) (file : Option UploadedFile) (text : Option String)
    (language : String) : Except ErrorResponse AnalyzeResponse × Bool :=
  let step := get_document_text file text
  (handle_exceptions
    (step.1.bind fun document_text =>
      dispatch_analysis client ext processing_time document_text language),
   step.2)

/-- The claim's (and spec's) description of PDF page joining, written from
its words for comparison with `extract_text_from_pdf`: the page texts in
page order, pages with no extractable text skipped, one newline separating
each. -/
def joinPagesSpec : List String → String
  | [] => ""
  | [p] => p
  | p :: q :: rest => p ++ "\n" ++ joinPagesSpec (q :: rest)

/-- Each contributing page followed by one newline, concatenated (the shape
`extract_text_from_pdf`'s fold produces before the final strip). -/
def appendNlAll : List String → String
  | [] => ""
  | p :: rest => p ++ "\n" ++ appendNlAll rest

/-! ## Helper lemmas -/

theorem pyIsSpace_newline : pyIsSpace '\n' = true := rfl

theorem stripList_append_newline (l : List Char) :
    stripList (l ++ ['\n']) = stripList l := by
  unfold stripList
  rw [List.dropWhile_append]
  by_cases h : (l.dropWhile pyIsSpace).isEmpty = true
  · have h0 : l.dropWhile pyIsSpace = [] := List.isEmpty_iff.mp h
    simp [h, h0, List.dropWhile_cons, pyIsSpace_newline]
  · simp only [h, if_false, Bool.false_eq_true]
    rw [List.reverse_append]
    simp [List.dropWhile_cons, pyIsSpace_newline]

theorem pyStrip_append_newline (s : String) : pyStrip (s ++ "\n") = pyStrip s := by
  apply String.ext
  show stripList (s ++ "\n").data = stripList s.data
  rw [String.data_append]
  exact stripList_append_newline s.data

theorem foldl_pdf_eq_appendNlAll (pages : List String) : ∀ acc : String,
    pages.foldl (fun text page_text => if page_text = "" then text else text ++ page_text ++ "\n") acc
      = acc ++ appendNlAll (pages.filter (fun p => !(p == ""))) := by
  induction pages with
  | nil => intro acc; simp [appendNlAll, String.append_empty]
  | cons p rest ih =>
    intro acc
    by_cases hp : p = ""
    · subst hp
      simp only [List.foldl_cons, if_pos rfl, List.filter_cons]
      simp [ih]
    · have hb : (p == "") = false := beq_eq_false_iff_ne.mpr hp
      simp only [List.foldl_cons, if_neg hp, List.filter_cons, hb, Bool.not_false, if_pos]
      rw [ih, appendNlAll]
      simp [String.append_assoc]

theorem appendNlAll_eq_joinPagesSpec (l : List String) (h : l ≠ []) :
    appendNlAll l = joinPagesSpec l ++ "\n" := by
  induction l with
  | nil => exact absurd rfl h
  | cons p rest ih =>
    cases rest with
    | nil => simp [appendNlAll, joinPagesSpec, String.append_empty]
    | cons q rest2 =>
      rw [appendNlAll, ih (by simp), joinPagesSpec]
      simp [String.append_assoc]

theorem pyStrip_appendNlAll (l : List String) :
    pyStrip (appendNlAll l) = pyStrip (joinPagesSpec l) := by
  cases l with
  | nil => rfl
  | cons p rest =>
    rw [appendNlAll_eq_joinPagesSpec (p :: rest) (by simp), pyStrip_append_newline]

theorem stripList_decomp (l : List Char) :
    ∃ pre suf, l = pre ++ (stripList l ++ suf)
      ∧ (∀ c ∈ pre, pyIsSpace c = true) ∧ (∀ c ∈ suf, pyIsSpace c = true) := by
  refine ⟨l.takeWhile pyIsSpace,
    ((l.dropWhile pyIsSpace).reverse.takeWhile pyIsSpace).reverse, ?_, ?_, ?_⟩
  · conv_lhs => rw [← List.takeWhile_append_dropWhile pyIsSpace l]
    congr 1
    conv_lhs => rw [← List.reverse_reverse (l.dropWhile pyIsSpace),
      ← List.takeWhile_append_dropWhile pyIsSpace (l.dropWhile pyIsSpace).reverse]
    rw [List.reverse_append]
    rfl
  · intro c hc; exact List.mem_takeWhile_imp hc
  · intro c hc; rw [List.mem_reverse] at hc; exact List.mem_takeWhile_imp hc

theorem suffix_eq_of_length {α : Type} {l t1 t2 s1 s2 : List α}
    (h1 : t1 ++ s1 = l) (h2 : t2 ++ s2 = l) (hl : s1.length = s2.length) : s1 = s2 :=
  (List.append_inj' (h1.trans h2.symm) hl).2

theorem not_pdf_of_txtlike (s : String)
    (h : (pyEndsWith s ".txt" || pyEndsWith s ".doc" || pyEndsWith s ".docx") = true) :
    pyEndsWith s ".pdf" = false := by
  cases hpdfb : pyEndsWith s ".pdf" with
  | false => rfl
  | true =>
    exfalso
    obtain ⟨tp, htp⟩ : ".pdf".data <:+ s.data := List.isSuffixOf_iff_suffix.mp hpdfb
    rw [Bool.or_eq_true, Bool.or_eq_true] at h
    rcases h with (h | h) | h
    · obtain ⟨tt, htt⟩ : ".txt".data <:+ s.data := List.isSuffixOf_iff_suffix.mp h
      exact absurd (suffix_eq_of_length htp htt rfl) (by decide)
    · obtain ⟨tt, htt⟩ : ".doc".data <:+ s.data := List.isSuffixOf_iff_suffix.mp h
      exact absurd (suffix_eq_of_length htp htt rfl) (by decide)
    · obtain ⟨tt, htt⟩ : ".docx".data <:+ s.data := List.isSuffixOf_iff_suffix.mp h
      have h5 : (tt ++ ['.']) ++ ['d', 'o', 'c', 'x'] = s.data := by
        rw [List.append_assoc]; exact htt
      exact absurd (suffix_eq_of_length htp h5 rfl) (by decide)

theorem process_uploaded_file_http_status (f : UploadedFile) (s : Nat) (d : String)
    (h : (process_uploaded_file f).1 = Except.error (PyExc.httpException s d)) : s = 400 := by
  unfold process_uploaded_file at h
  cases hr : f.readResult with
  | error m => rw [hr] at h; simp at h
  | ok content =>
    rw [hr] at h
    dsimp only at h
    by_cases hpdf : pyEndsWith (pyToLower f.filename) ".pdf" = true
    · rw [if_pos hpdf] at h
      cases hp : f.pdfParse with
      | error e =>
        rw [hp] at h
        simp [extract_text_from_pdf, Except.bind] at h
        exact h.1.symm
      | ok pages =>
        rw [hp] at h
        simp only [extract_text_from_pdf, Except.bind] at h
        split at h
        · simp at h; exact h.1.symm
        · simp at h
    · rw [if_neg hpdf] at h
      by_cases htxt : (pyEndsWith (pyToLower f.filename) ".txt" || pyEndsWith (pyToLower f.filename) ".doc"
          || pyEndsWith (pyToLower f.filename) ".docx") = true
      · rw [if_pos htxt] at h
        cases hd : utf8DecodeStrict content with
        | none =>
          simp [extract_text_from_txt, hd, Except.bind] at h
          exact h.1.symm
        | some cps =>
          simp only [extract_text_from_txt, hd, Except.bind] at h
          split at h
          · simp at h; exact h.1.symm
          · simp at h
      · rw [if_neg htxt] at h
        simp only [Except.bind] at h
        split at h
        · simp at h; exact h.1.symm
        · simp at h

theorem get_document_text_http_status (file : Option UploadedFile) (text : Option String)
    (s : Nat) (d : String)
    (h : (get_document_text file text).1 = Except.error (PyExc.httpException s d)) : s = 400 := by
  cases file with
  | some f => exact process_uploaded_file_http_status f s d h
  | none =>
    cases text with
    | none => simp [get_document_text] at h; exact h.1.symm
    | some t =>
      by_cases ht : t = ""
      · simp [get_document_text, ht] at h; exact h.1.symm
      · simp [get_document_text, ht] at h

/-! ## Claim theorems -/

/-- Claim C1: with no Anthropic client configured (`client = none`), for every
non-empty document text and every language, the dispatcher returns the demo
response successfully — `success = true`, metadata `mode = "demo"`, the
character count of the document, and the language echoed — and the result is
independent of the external-call outcome and of the clock (no external
service is contacted), with no error raised for the missing credential. -/
theorem demo_mode_analysis_spec (ext ext2 : Except PyExc ClaudeResponse)
    (ptime ptime2 : Nat) (document_text language : String)
    (h : document_text ≠ "") :
    dispatch_analysis none ext ptime document_text language
      = Except.ok (get_demo_response document_text language)
    ∧ dispatch_analysis none ext ptime document_text language
      = dispatch_analysis none ext2 ptime2 document_text language
    ∧ (get_demo_response document_text language).success = true
    ∧ (get_demo_response document_text language).metadata
      = Metadata.demo
          { mode := "demo"
            chars_processed := document_text.length
            language := language
            model := "none"
            timestamp := "2024-01-01T00:00:00Z" } := by
  refine ⟨?_, ?_, rfl, rfl⟩
  · simp [dispatch_analysis, h]
  · simp [dispatch_analysis, h]

/-- Claim C3: with a client configured and a successful external call whose
reply text is `first`, the dispatcher returns `success = true`, `analysis`
exactly the reply text (unmodified), and production metadata carrying the
token usage and the processing time. -/
theorem production_success_spec (c : AnthropicClient) (first : String)
    (rest : List String) (tokens ptime : Nat) (document_text language : String)
    (h : document_text ≠ "") :
    dispatch_analysis (some c) (Except.ok ⟨first :: rest, tokens⟩) ptime document_text language
      = Except.ok
          { success := true
            analysis := first
            metadata := Metadata.prod
              { tokens_used := tokens
                model := "claude-3-haiku-20240307"
                language := language
                processing_time_seconds := ptime
                document_chars := document_text.length
                api_mode := "production" } } := by
  simp [dispatch_analysis, h]

/-- Claim C4, counterexample: for the parsed single-page PDF whose page text
is `"x "`, the code returns `"x"` — the final `.strip()` of line 162 removed
the page's trailing space — while the page texts joined with one separating
newline would be `"x "`.  So ingestion does not return exactly the page
texts concatenated with newline separators. -/
theorem pdf_join_claim_counterexample :
    extract_text_from_pdf (Except.ok ["x "]) = Except.ok "x"
      ∧ joinPagesSpec ((["x "] : List String).filter (fun p => !(p == ""))) = "x "
      ∧ ("x" : String) ≠ "x " := by
  refine ⟨by decide, by decide, by decide⟩

/-- Claim C4, amended: for every parsed PDF, `extract_text_from_pdf` returns
the page texts joined in page order with one newline separating each, pages
with no extractable text contributing nothing, *and the result stripped of
leading and trailing whitespace*; a PDF that cannot be opened or parsed
fails with an HTTP 400 document-read error. -/
theorem pdf_extraction_amended_spec (pages : List String) (err : String) :
    extract_text_from_pdf (Except.ok pages)
      = Except.ok (pyStrip (joinPagesSpec (pages.filter (fun p => !(p == "")))))
    ∧ extract_text_from_pdf (Except.error err)
      = Except.error (PyExc.httpException 400 ("Error leyendo PDF: " ++ err)) := by
  constructor
  · have h1 : extract_text_from_pdf (Except.ok pages)
        = Except.ok (pyStrip (pages.foldl
            (fun text page_text => if page_text = "" then text else text ++ page_text ++ "\n")
            "")) := rfl
    rw [h1, foldl_pdf_eq_appendNlAll]
    show Except.ok (pyStrip (appendNlAll (pages.filter fun p => !(p == "")))) = _
    rw [pyStrip_appendNlAll]
  · rfl

/-- Claim C5, counterexample: a `.txt` upload whose single byte `0xFF` is
not valid UTF-8 makes ingestion fail with an HTTP 400 — the strict decoding
of `open(path, 'r', encoding='utf-8')` at line 167 raises — instead of
replacing or ignoring the malformed byte. -/
theorem txt_strict_decode_counterexample :
    (process_uploaded_file
        { filename := "nota.txt", readResult := Except.ok [255], pdfParse := Except.ok [] }).1
      = Except.error
          (PyExc.httpException 400 ("Error leyendo archivo de texto: " ++ "invalid utf-8")) := by
  decide

/-- Claim C5, amended: for an upload whose lowercased name ends in `.txt`,
`.doc` or `.docx` and whose bytes were read successfully, the contents are
decoded as *strict* UTF-8: malformed bytes make the request fail with an
HTTP 400 client error (they are not replaced or ignored), valid UTF-8 yields
exactly the decoded text (subject to the non-empty check), and the temporary
file is deleted. -/
theorem txt_strict_utf8_spec (f : UploadedFile) (content : List Nat)
    (hread : f.readResult = Except.ok content)
    (hext : (pyEndsWith (pyToLower f.filename) ".txt" || pyEndsWith (pyToLower f.filename) ".doc"
        || pyEndsWith (pyToLower f.filename) ".docx") = true) :
    (process_uploaded_file f).2 = false
    ∧ (utf8DecodeStrict content = none →
        (process_uploaded_file f).1
          = Except.error
              (PyExc.httpException 400 ("Error leyendo archivo de texto: " ++ "invalid utf-8")))
    ∧ (∀ cps, utf8DecodeStrict content = some cps →
        (process_uploaded_file f).1
          = if pyStrip (stringOfCodepoints cps) = "" then
              Except.error
                (PyExc.httpException 400 "El documento está vacío o no se pudo extraer texto")
            else
              Except.ok (stringOfCodepoints cps)) := by
  have hpdf : pyEndsWith (pyToLower f.filename) ".pdf" = false :=
    not_pdf_of_txtlike _ hext
  unfold process_uploaded_file
  rw [hread]
  dsimp only
  rw [if_neg (by rw [hpdf]; exact Bool.false_ne_true), if_pos hext]
  refine ⟨rfl, ?_, ?_⟩
  · intro hd
    simp [extract_text_from_txt, hd, Except.bind]
  · intro cps hcps
    simp only [extract_text_from_txt, hcps, Except.bind]

/-- The concrete `.txt` upload used to witness `txt_strict_utf8_spec`:
bytes `[104, 111, 108, 97]`, i.e. the UTF-8 encoding of `"hola"`. -/
def witnessTxtFile : UploadedFile :=
  { filename := "nota.txt", readResult := Except.ok [104, 111, 108, 97],
    pdfParse := Except.ok [] }

/-- Witness for `txt_strict_utf8_spec` at a concrete valid-UTF-8 `.txt`
upload. -/
theorem txt_strict_utf8_spec_witness :
    (process_uploaded_file witnessTxtFile).1
      = Except.ok (stringOfCodepoints [104, 111, 108, 97])
    ∧ (process_uploaded_file witnessTxtFile).2 = false := by
  have h := txt_strict_utf8_spec witnessTxtFile [104, 111, 108, 97] rfl (by decide)
  refine ⟨?_, h.1⟩
  rw [h.2.2 [104, 111, 108, 97] (by decide)]
  rw [if_neg (by decide)]

/-- Claim C6: a request with no file and a text field that is non-empty
after trimming passes exactly the trimmed text on to analysis, and trimming
only removes leading and trailing whitespace characters (the text is
otherwise unchanged). -/
theorem raw_text_trim_spec (t : String) (h : pyStrip t ≠ "") :
    (get_document_text none (some t)).1 = Except.ok (pyStrip t)
    ∧ ∃ pre suf, t.data = pre ++ ((pyStrip t).data ++ suf)
        ∧ (∀ c ∈ pre, pyIsSpace c = true) ∧ (∀ c ∈ suf, pyIsSpace c = true) := by
  have ht : t ≠ "" := by
    intro he
    apply h
    rw [he]
    rfl
  constructor
  · simp [get_document_text, ht]
  · exact stripList_decomp t.data

/-- Witness for `raw_text_trim_spec` at `"  hola  "`. -/
theorem raw_text_trim_spec_witness :
    (get_document_text none (some "  hola  ")).1 = Except.ok (pyStrip "  hola  ")
      ∧ pyStrip "  hola  " = "hola" := by
  have h := raw_text_trim_spec "  hola  " (by decide)
  exact ⟨h.1, by decide⟩

/-- Witness for `demo_mode_analysis_spec` at `"hola"` / `"EN"`. -/
theorem demo_mode_analysis_spec_witness :
    dispatch_analysis none (Except.ok ⟨[], 0⟩) 0 "hola" "EN"
      = Except.ok (get_demo_response "hola" "EN")
    ∧ (get_demo_response "hola" "EN").success = true := by
  have h := demo_mode_analysis_spec (Except.ok ⟨[], 0⟩)
    (Except.error (PyExc.apiError "x")) 0 1 "hola" "EN" (by decide)
  exact ⟨h.1, h.2.2.1⟩

/-- Witness for `production_success_spec` at a concrete reply. -/
theorem production_success_spec_witness :
    dispatch_analysis (some ⟨"k"⟩) (Except.ok ⟨["análisis"], 42⟩) 3 "doc" "EN"
      = Except.ok
          { success := true
            analysis := "análisis"
            metadata := Metadata.prod
              { tokens_used := 42
                model := "claude-3-haiku-20240307"
                language := "EN"
                processing_time_seconds := 3
                document_chars := ("doc" : String).length
                api_mode := "production" } } :=
  production_success_spec ⟨"k"⟩ "análisis" [] 42 3 "doc" "EN" (by decide)

/-- Claim C2: the error taxonomy of `analyze_document`.  (i) When the
external call raises `anthropic.APIError`, the request fails with exactly
the 502 upstream-service error (in particular never a 500).  (ii) When the
external call raises any other unexpected exception, the request fails with
the generic 500 internal error.  (iii) Every `HTTPException` raised while
obtaining the document text (validation and document-read failures) has
status 400 and is returned unchanged as a client error.  (iv) An unexpected
exception while obtaining the document text also maps to the generic 500.
(v) The outcome is a single value: a result is never returned alongside an
error. -/
theorem analyze_error_taxonomy_spec (client : Option AnthropicClient)
    (ext : Except PyExc ClaudeResponse) (ptime : Nat) (file : Option UploadedFile)
    (text : Option String) (language : String) :
    (∀ c dt m, client = some c → (get_document_text file text).1 = Except.ok dt → dt ≠ "" →
      ext = Except.error (PyExc.apiError m) →
      (analyze_document client ext ptime file text language).1
        = Except.error ⟨502, "Error en el servicio de IA: " ++ m⟩)
    ∧ (∀ c dt m, client = some c → (get_document_text file text).1 = Except.ok dt → dt ≠ "" →
      ext = Except.error (PyExc.otherError m) →
      (analyze_document client ext ptime file text language).1
        = Except.error ⟨500, "Error interno del servidor: " ++ m⟩)
    ∧ (∀ s d, (get_document_text file text).1 = Except.error (PyExc.httpException s d) →
      s = 400 ∧ (analyze_document client ext ptime file text language).1
        = Except.error ⟨s, d⟩)
    ∧ (∀ m, (get_document_text file text).1 = Except.error (PyExc.otherError m) →
      (analyze_document client ext ptime file text language).1
        = Except.error ⟨500, "Error interno del servidor: " ++ m⟩)
    ∧ (∀ r e, ¬((analyze_document client ext ptime file text language).1 = Except.ok r
        ∧ (analyze_document client ext ptime file text language).1 = Except.error e)) := by
  refine ⟨?_, ?_, ?_, ?_, ?_⟩
  · intro c dt m hc hdt hne hext
    simp [analyze_document, hdt, Except.bind, dispatch_analysis, hne, hc, hext,
      handle_exceptions]
  · intro c dt m hc hdt hne hext
    simp [analyze_document, hdt, Except.bind, dispatch_analysis, hne, hc, hext,
      handle_exceptions]
  · intro s d hdt
    refine ⟨get_document_text_http_status file text s d hdt, ?_⟩
    simp [analyze_document, hdt, Except.bind, handle_exceptions]
  · intro m hdt
    simp [analyze_document, hdt, Except.bind, handle_exceptions]
  · intro r e ⟨h1, h2⟩
    rw [h1] at h2
    exact Except.noConfusion h2

/-- Witness for `analyze_error_taxonomy_spec`: a 502 upstream failure, a 500
internal failure, and a 400 validation failure, each at a concrete input. -/
theorem analyze_error_taxonomy_spec_witness :
    (analyze_document (some ⟨"k"⟩) (Except.error (PyExc.apiError "quota")) 0
        none (some "doc") "ES").1
      = Except.error ⟨502, "Error en el servicio de IA: " ++ "quota"⟩
    ∧ (analyze_document (some ⟨"k"⟩) (Except.error (PyExc.otherError "boom")) 0
        none (some "doc") "ES").1
      = Except.error ⟨500, "Error interno del servidor: " ++ "boom"⟩
    ∧ (analyze_document none (Except.ok ⟨[], 0⟩) 0 none none "ES").1
      = Except.error ⟨400, "Debe proporcionar un archivo (file) o texto (text)"⟩ := by
  refine ⟨?_, ?_, ?_⟩
  · exact (analyze_error_taxonomy_spec (some ⟨"k"⟩) (Except.error (PyExc.apiError "quota"))
      0 none (some "doc") "ES").1 ⟨"k"⟩ "doc" "quota" rfl (by decide) (by decide) rfl
  · exact (analyze_error_taxonomy_spec (some ⟨"k"⟩) (Except.error (PyExc.otherError "boom"))
      0 none (some "doc") "ES").2.1 ⟨"k"⟩ "doc" "boom" rfl (by decide) (by decide) rfl
  · exact ((analyze_error_taxonomy_spec none (Except.ok ⟨[], 0⟩) 0 none none "ES").2.2.1
      400 "Debe proporcionar un archivo (file) o texto (text)" rfl).2

/-- Claim C7: a request with no file and no usable text — no text at all, or
text that is empty or whitespace-only — fails with an HTTP 400 whose detail
describes the validation failure, and no analysis result (demo or
production) is produced. -/
theorem missing_input_validation_spec (client : Option AnthropicClient)
    (ext : Except PyExc ClaudeResponse) (ptime : Nat) (language : String)
    (text : Option String)
    (h : text = none ∨ ∃ t, text = some t ∧ pyStrip t = "") :
    ∃ d, (analyze_document client ext ptime none text language).1
        = Except.error ⟨400, d⟩
      ∧ (d = "Debe proporcionar un archivo (file) o texto (text)"
          ∨ d = "El documento está vacío") := by
  rcases h with h | ⟨t, ht, hs⟩
  · subst h
    refine ⟨"Debe proporcionar un archivo (file) o texto (text)", ?_, Or.inl rfl⟩
    simp [analyze_document, get_document_text, Except.bind, handle_exceptions]
  · subst ht
    by_cases hte : t = ""
    · subst hte
      refine ⟨"Debe proporcionar un archivo (file) o texto (text)", ?_, Or.inl rfl⟩
      simp [analyze_document, get_document_text, Except.bind, handle_exceptions]
    · refine ⟨"El documento está vacío", ?_, Or.inr rfl⟩
      simp [analyze_document, get_document_text, hte, Except.bind, dispatch_analysis, hs,
        handle_exceptions]

/-- Witness for `missing_input_validation_spec` at whitespace-only text. -/
theorem missing_input_validation_spec_witness :
    (analyze_document none (Except.ok ⟨[], 0⟩) 0 none (some "   ") "ES").1
      = Except.error ⟨400, "El documento está vacío"⟩ := by
  obtain ⟨d, hd, hcase⟩ := missing_input_validation_spec none (Except.ok ⟨[], 0⟩) 0 "ES"
    (some "   ") (Or.inr ⟨"   ", rfl, by decide⟩)
  rcases hcase with h | h
  · rw [h] at hd
    exact absurd hd (by decide)
  · rw [h] at hd
    exact hd

/-- The concrete upload whose content read fails, used for claim C8: the
`with tempfile.NamedTemporaryFile(delete=False)` block of lines 180-183 has
already created the temporary file when `await file.read()` raises, and that
block sits *before* the `try`/`finally` that performs `os.unlink`. -/
def leakFile : UploadedFile :=
  { filename := "carga.pdf", readResult := Except.error "connection reset",
    pdfParse := Except.ok [] }

/-- Claim C8 (code bug): evaluating the handler at an upload whose content
read raises shows the request exiting with the generic 500 error while the
temporary file created for it is still on disk (second component `true`) —
contradicting guaranteed deletion on every exit path. -/
theorem temp_file_leak_on_read_failure :
    (analyze_document none (Except.ok ⟨[], 0⟩) 0 (some leakFile) none "ES").1
      = Except.error ⟨500, "Error interno del servidor: " ++ "connection reset"⟩
    ∧ (analyze_document none (Except.ok ⟨[], 0⟩) 0 (some leakFile) none "ES").2 = true := by
  exact ⟨rfl, rfl⟩

/-- Claim C9: when both a file and a text field are supplied, the document
text is obtained from the uploaded file alone — the handler's branch
`if file:` at line 302 never consults `text` — so the whole response is
unchanged under any replacement of the text field. -/
theorem file_precedence_spec (client : Option AnthropicClient)
    (ext : Except PyExc ClaudeResponse) (ptime : Nat) (f : UploadedFile)
    (t t2 : Option String) (language : String) :
    get_document_text (some f) t = process_uploaded_file f
    ∧ analyze_document client ext ptime (some f) t language
      = analyze_document client ext ptime (some f) t2 language :=
  ⟨rfl, rfl⟩

/-- Claim C10: the health response is identical across any two clock values
and carries the fixed literal timestamp of line 278; the demo-mode analysis
is identical across any two clock values and external-call outcomes; and the
demo metadata carries the same fixed literal timestamp (line 251), never the
current time. -/
theorem deterministic_fixed_timestamp_spec (client : Option AnthropicClient)
    (now now2 : String) (ext ext2 : Except PyExc ClaudeResponse)
    (ptime ptime2 : Nat) (document_text language : String) :
    health_check client now = health_check client now2
    ∧ (health_check client now).timestamp = "2024-01-01T00:00:00Z"
    ∧ dispatch_analysis none ext ptime document_text language
      = dispatch_analysis none ext2 ptime2 document_text language
    ∧ (get_demo_response document_text language).metadata
      = Metadata.demo
          { mode := "demo"
            chars_processed := document_text.length
            language := language
            model := "none"
            timestamp := "2024-01-01T00:00:00Z" } := by
  refine ⟨rfl, rfl, ?_, rfl⟩
  by_cases hdt : document_text = "" <;> simp [dispatch_analysis, hdt]
